import Mathlib

/-!
Verification of the synchronization and event-distribution core of the
Mint Replica Lite backend (`app/services/sync_service.py`,
`app/services/plaid_service.py`, `app/core/events.py`,
`app/core/websockets.py`), as a shallow embedding in Lean 4.

Python dicts are modelled as association lists (`List (String × α)`) with
first-match lookup, Python sets as duplicate-free lists, and the external
Plaid aggregator as a function parameter.  Async calls that can only
succeed or fail are modelled by explicit Boolean outcome parameters.
-/

namespace MintRepl

/-! ## Association-list model of Python dicts -/

/-- Lookup in an association list (Python `d.get(k)` / `d[k]`). -/
def alGet {α : Type} : List (String × α) → String → Option α
  | [], _ => none
  | (k', v) :: rest, k => if k' = k then some v else alGet rest k

/-- Update/insert in an association list (Python `d[k] = v`). -/
def alSet {α : Type} : List (String × α) → String → α → List (String × α)
  | [], k, v => [(k, v)]
  | (k', v') :: rest, k, v =>
      if k' = k then (k, v) :: rest else (k', v') :: alSet rest k v

/-- Deletion from an association list (Python `del d[k]`, absent key untouched). -/
def alRemove {α : Type} : List (String × α) → String → List (String × α)
  | [], _ => []
  | (k', v') :: rest, k =>
      if k' = k then alRemove rest k else (k', v') :: alRemove rest k

/-! ## Data carried by events

`EventManager.publish_event` formats `{type, payload, timestamp, target_users}`.
We keep the fields the claims inspect: the type, the targeted user ids and the
transaction list carried by `transaction.create` payloads. -/

/-- A transaction record as produced by `PlaidService.sync_transactions`
(fields `id, account_id, amount, date, name, merchant_name, category, pending`;
`amount` in cents to stay in `Int`). -/
structure Txn where
  id : String
  account_id : String
  amount : Int
  date : String
  name : String
  pending : Bool
deriving Repr, DecidableEq

/-- An event message as assembled by `EventManager.publish_event` /
`SyncService`: event type, targeted users (`user_ids`), and the transaction
list when the payload carries one. -/
structure EventMsg where
  etype : String
  target_users : List String
  txns : List Txn
deriving Repr, DecidableEq

/-! ## SyncService (`app/services/sync_service.py`) -/

/-- State owned by `SyncService` together with the cursor entries it keeps in
the cache: `self._sync_cursors`, the cache entries `sync_cursor:<key>`, and
the cache entry `sync_cursor:keys`. -/
structure SyncState where
  syncCursors : List (String × String)
  cacheCursors : List (String × String)
  cursorKeys : List String
deriving Repr, DecidableEq

/-- `SyncService._save_sync_cursor`: store the cursor in the in-memory dict,
in the cache, and append the key to the `sync_cursor:keys` list if absent. -/
def save_sync_cursor (st : SyncState) (user_id cursor : String) : SyncState :=
  { syncCursors := alSet st.syncCursors user_id cursor
    cacheCursors := alSet st.cacheCursors user_id cursor
    cursorKeys := if user_id ∈ st.cursorKeys then st.cursorKeys
                  else st.cursorKeys ++ [user_id] }

/-- Result dict of `SyncService.sync_transactions` plus the events the run
published.  `published_ok` is the Boolean returned by
`EventManager.publish_event` (which returns `False` instead of raising when
its cache write fails); `sync_transactions` ignores it. -/
structure TxnSyncResult where
  new_transactions : Nat
  cursor : String
  events : List EventMsg
  published_ok : Bool
deriving Repr, DecidableEq

/-- `SyncService.sync_transactions`.  `plaid` is
`PlaidService.sync_transactions` for the given access token: from the current
cursor (`None` on first sync) it returns the added-transaction list and
`next_cursor`.  The cursor is saved when `next_cursor` is truthy (non-empty),
then a `transaction.create` event is published when the list is non-empty;
`publishOk` is the outcome of that publish call, which the code ignores. -/
def sync_transactions (plaid : Option String → List Txn × String)
    (publishOk : Bool) (st : SyncState) (user_id : String) :
    SyncState × TxnSyncResult :=
  let cursor := alGet st.syncCursors user_id
  let resp := plaid cursor
  let transactions := resp.1
  let next_cursor := resp.2
  let st1 := if next_cursor ≠ "" then save_sync_cursor st user_id next_cursor else st
  let events := if transactions ≠ [] then
      [{ etype := "transaction.create", target_users := [user_id],
         txns := transactions }] else []
  (st1, { new_transactions := transactions.length, cursor := next_cursor,
          events := events,
          published_ok := if transactions ≠ [] then publishOk else true })

/-! ## EventManager (`app/core/events.py`) -/

/-- `EVENT_TYPES.values()` from `app/core/events.py`: the closed set of event
types the code recognises. -/
def EVENT_TYPES_values : List String :=
  ["account.update", "transaction.create", "budget.update",
   "goal.update", "investment.update"]

/-- The known event-type set as the spec words it (§6 of the spec): the five
code types plus `sync.failed`.  Kept separate so it can be compared with
`EVENT_TYPES_values`. -/
def SPEC_KNOWN_EVENT_TYPES : List String :=
  ["account.update", "transaction.create", "budget.update",
   "goal.update", "investment.update", "sync.failed"]

/-- The body of `EventManager.publish_event` up to its `except` clause.  An
invalid event type raises `ValueError` first.  For a valid type the event is
then written to the cache; `cacheWriteOk` is the outcome of that store step —
the `json.dumps(event_message)` serialization plus the
`await self._cache.set(...)` call, either of which can raise (and, as the
repo is assembled, the `await` of the synchronous `RedisCache.set`'s plain
return value raises `TypeError`, so this step never succeeds there).  Only
when the store step succeeds is `WebSocketManager.broadcast` reached (it
catches its own errors and returns a Boolean the caller ignores) and `True`
returned. -/
def publish_event_body (cacheWriteOk : Bool) (etype : String) : Except String Bool :=
  if etype ∈ EVENT_TYPES_values then
    if cacheWriteOk then Except.ok true
    else Except.error "event store write failed"
  else Except.error "Invalid event type"

/-- `EventManager.publish_event`: the blanket `except` wrapper turns any
error raised in the body into a `False` return value. -/
def publish_event (cacheWriteOk : Bool) (etype : String) : Bool :=
  match publish_event_body cacheWriteOk etype with
  | Except.ok b => b
  | Except.error _ => false

/-- The shared truthiness test `if not target_users or user_id in
target_users` of `EventManager.handle_event`, and equally the complement of
the skip test `if user_ids and user_id not in user_ids` of
`WebSocketManager._distribute_message`: a user passes when the target list is
`None` or empty, or contains the user. -/
def target_filter (targets : Option (List String)) (u : String) : Bool :=
  match targets with
  | none => true
  | some l => if l = [] then true else decide (u ∈ l)

/-- The subscriber computation of `EventManager.handle_event`: every user of
the subscription registry whose subscribed types contain the event type and
who passes the target filter. -/
def handle_event_subscribers (emSubs : List (String × List String))
    (etype : String) (targets : Option (List String)) : List String :=
  (emSubs.filter (fun p => decide (etype ∈ p.2) && target_filter targets p.1)).map
    Prod.fst

/-! ## WebSocketManager (`app/core/websockets.py`) -/

/-- `MAX_CONNECTIONS_PER_USER` from `app/core/websockets.py`. -/
def MAX_CONNECTIONS_PER_USER : Nat := 5

/-- The `valid_events` set of `WebSocketManager.subscribe`. -/
def WS_VALID_EVENTS : List String :=
  ["transaction", "budget", "goal", "notification"]

/-- State owned by `WebSocketManager`: `self._connections` (user id → set of
websockets, websockets modelled as numeric ids) and `self._subscriptions`
(user id → set of event types). -/
structure WSState where
  connections : List (String × List Nat)
  subscriptions : List (String × List String)
deriving Repr, DecidableEq

/-- Python `set.add` on a set modelled as a duplicate-free list. -/
def setAdd (l : List Nat) (x : Nat) : List Nat :=
  if x ∈ l then l else x :: l

/-- Number of live connections `len(self._connections[user_id])` a user
holds (0 when absent). -/
def userConnCount (st : WSState) (u : String) : Nat :=
  ((alGet st.connections u).getD []).length

/-- `WebSocketManager.connect`: `user_id` is the identity resolved from the
token by `AuthManager.verify_token` (`none` when verification yields no
subject, in which case `False` is returned).  A user already holding
`MAX_CONNECTIONS_PER_USER` connections is rejected; otherwise the websocket
is added to the user's set and `True` is returned. -/
def connect (st : WSState) (user_id : Option String) (ws : Nat) :
    WSState × Bool :=
  match user_id with
  | none => (st, false)
  | some uid =>
      match alGet st.connections uid with
      | some conns =>
          if MAX_CONNECTIONS_PER_USER ≤ conns.length then (st, false)
          else ({ st with connections := alSet st.connections uid (setAdd conns ws) },
                true)
      | none =>
          ({ st with connections := alSet st.connections uid (setAdd [] ws) }, true)

/-- `WebSocketManager.disconnect`: remove the websocket from the user's
connection set (a `set.remove` of an absent element raises `KeyError`, which
the `except` clause turns into a `False` return before the subscription
cleanup is reached), drop the user's connection entry when it became empty,
and delete the user's whole subscription entry. -/
def disconnect (st : WSState) (user_id : String) (ws : Nat) : WSState × Bool :=
  match alGet st.connections user_id with
  | some conns =>
      if ws ∈ conns then
        let conns' := conns.filter (fun w => w ≠ ws)
        let connections' :=
          if conns'.isEmpty then alRemove st.connections user_id
          else alSet st.connections user_id conns'
        ({ connections := connections',
           subscriptions := alRemove st.subscriptions user_id }, true)
      else (st, false)
  | none =>
      ({ st with subscriptions := alRemove st.subscriptions user_id }, true)

/-- `WebSocketManager.subscribe`: event types are validated against
`valid_events`; on success they are unioned into the user's subscription
set. -/
def ws_subscribe (st : WSState) (user_id : String) (etypes : List String) :
    WSState × Bool :=
  if etypes.all (fun e => decide (e ∈ WS_VALID_EVENTS)) then
    let cur := (alGet st.subscriptions user_id).getD []
    let updated := cur ++ etypes.filter (fun e => decide (e ∉ cur))
    ({ st with subscriptions := alSet st.subscriptions user_id updated }, true)
  else (st, false)

/-- `WebSocketManager._distribute_message`: iterate over all connection
entries; skip a user excluded by a non-empty `user_ids` list; send the
payload on each of the user's websockets when the user's subscription set
contains the event type.  Returns the (user, websocket) pairs that receive a
send. -/
def distribute_message (conns : List (String × List Nat))
    (subs : List (String × List String)) (etype : String)
    (uids : Option (List String)) : List (String × Nat) :=
  conns.flatMap (fun p =>
    if target_filter uids p.1 then
      match alGet subs p.1 with
      | some ts => if etype ∈ ts then p.2.map (fun w => (p.1, w)) else []
      | none => []
    else [])

/-- The delivery pipeline the event layer runs for a stored event:
`EventManager.handle_event` computes the subscriber set from its registry and,
when non-empty, hands the event to `WebSocketManager.broadcast` with
`user_ids` set to that list; the websocket layer's distribution step then
filters by its own subscription registry and the live connection set. -/
def handle_event_recipients (emSubs wsSubs : List (String × List String))
    (conns : List (String × List Nat)) (etype : String)
    (targets : Option (List String)) : List (String × Nat) :=
  if etype = "" then []
  else
    let subscribers := handle_event_subscribers emSubs etype targets
    if subscribers = [] then []
    else distribute_message conns wsSubs etype (some subscribers)

/-- One round of `WebSocketManager._monitor_heartbeat` after the `ping` was
sent: `websocket.receive_json()` resolving within `PING_TIMEOUT` with any
message keeps the loop (and the connection) alive; a timeout or a closed
connection triggers `disconnect` and ends the loop.  Returns the new state
and whether the connection remains open. -/
inductive HeartbeatObs where
  | received (mtype : String)
  | timeout
  | connectionClosed
deriving Repr, DecidableEq

/-- See `HeartbeatObs`; this is the dispatch of one monitor round. -/
def monitor_heartbeat_step (st : WSState) (user_id : String) (ws : Nat)
    (obs : HeartbeatObs) : WSState × Bool :=
  match obs with
  | HeartbeatObs.received _ => (st, true)
  | HeartbeatObs.timeout => ((disconnect st user_id ws).1, false)
  | HeartbeatObs.connectionClosed => ((disconnect st user_id ws).1, false)

/-! ## Sync scheduling (`SyncService.schedule_sync` / `sync_task`) -/

/-- The schedule dict built by `SyncService.schedule_sync`:
`{user_id, access_tokens, interval, last_sync}`.  It carries no status field
and no failure counter. -/
structure SyncSchedule where
  user_id : String
  access_tokens : List String
  interval : Nat
  last_sync : Option String
deriving Repr, DecidableEq

/-- One iteration of the `sync_task` loop inside `SyncService.schedule_sync`.
On a successful pass over all tokens, `last_sync` is stamped and the task
sleeps `interval_minutes * 60` seconds; on any exception the handler prints,
sleeps a fixed 60 seconds and loops again.  Returns the updated schedule, the
sleep (seconds) before the next tick, and the events the error handler
emitted (none — the handler only prints). -/
def sync_task_step (sch : SyncSchedule) (tickFailed : Bool) (now : String) :
    SyncSchedule × Nat × List EventMsg :=
  if tickFailed then (sch, 60, [])
  else ({ sch with last_sync := some now }, sch.interval * 60, [])

/-- `n` consecutive failing iterations of the `sync_task` loop: resulting
schedule, the sleeps chosen after each failure, and all events emitted by the
error handler. -/
def sync_task_fail_run (sch : SyncSchedule) : Nat → SyncSchedule × List Nat × List EventMsg
  | 0 => (sch, [], [])
  | n + 1 =>
      let step := sync_task_step sch true ""
      let rest := sync_task_fail_run step.1 n
      (rest.1, step.2.1 :: rest.2.1, step.2.2 ++ rest.2.2)

/-! ## Account/balance sync (`SyncService.sync_account_data`,
`PlaidService.get_balances`) -/

/-- An account as reported by the aggregator: id and the three balance
figures (in cents, to stay in `Int`). -/
structure PlaidAccount where
  account_id : String
  current : Int
  available : Int
  limit : Int
deriving Repr, DecidableEq

/-- A balance entry as built by `PlaidService.get_balances`: the aggregator's
figures plus a `last_updated` stamp taken from the clock at fetch time. -/
structure BalanceEntry where
  account_id : String
  current : Int
  available : Int
  limit : Int
  last_updated : String
deriving Repr, DecidableEq

/-- `PlaidService.get_balances` applied to the aggregator's account list at
clock reading `now`: each entry is stamped `last_updated := now`. -/
def get_balances (accounts : List PlaidAccount) (now : String) : List BalanceEntry :=
  accounts.map (fun a =>
    { account_id := a.account_id, current := a.current,
      available := a.available, limit := a.limit, last_updated := now })

/-- The balance figures of an entry without its `last_updated` stamp. -/
def balanceFigures (b : BalanceEntry) : String × Int × Int × Int :=
  (b.account_id, b.current, b.available, b.limit)

/-- Result of `SyncService.sync_account_data`: the balance cache after the
run, the returned `changes_detected` flag and `balances` list, and the
events published. -/
structure AccountSyncResult where
  cacheAfter : List (String × List BalanceEntry)
  changes_detected : Bool
  balances : List BalanceEntry
  events : List EventMsg
deriving Repr, DecidableEq

/-- `SyncService.sync_account_data`: fetch balances (stamped with the current
clock), read the cached value under `balances:<user_id>`, and treat the run
as changed when the cached value is falsy (`None` or the empty list) or the
fetched list differs from it; in that case the cache is rewritten and an
`account.update` event is published to the user. -/
def sync_account_data (cacheBal : List (String × List BalanceEntry))
    (user_id : String) (accounts : List PlaidAccount) (now : String) :
    AccountSyncResult :=
  let balances := get_balances accounts now
  let key := "balances:" ++ user_id
  let cached := alGet cacheBal key
  let changed := match cached with
    | none => true
    | some c => decide (c = []) || decide (balances ≠ c)
  if changed then
    { cacheAfter := alSet cacheBal key balances, changes_detected := true,
      balances := balances,
      events := [{ etype := "account.update", target_users := [user_id],
                   txns := [] }] }
  else
    { cacheAfter := cacheBal, changes_detected := false, balances := balances,
      events := [] }

/-! ## Concrete states used to evaluate the definitions -/

/-- A sample transaction as returned by the aggregator. -/
def txn0 : Txn :=
  { id := "tx1", account_id := "acc1", amount := 1500,
    date := "2024-01-01", name := "Coffee", pending := false }

/-- Empty sync state (fresh `SyncService`). -/
def syncSt0 : SyncState := { syncCursors := [], cacheCursors := [], cursorKeys := [] }

/-- Sync state in which user `U` already holds cursor `c0`. -/
def syncStC0 : SyncState :=
  { syncCursors := [("U", "c0")], cacheCursors := [("U", "c0")], cursorKeys := ["U"] }

/-- EventManager subscription registry: users `A` and `C` subscribed to
`goal.update`. -/
def emSubs0 : List (String × List String) :=
  [("A", ["goal.update"]), ("C", ["goal.update"])]

/-- WebSocket-level subscription registry as `WebSocketManager.subscribe`
could have produced it: users `A` and `C` subscribed to `goal`. -/
def wsSubs0 : List (String × List String) := [("A", ["goal"]), ("C", ["goal"])]

/-- Live connections: user `A` holds websocket 1, user `C` websocket 2. -/
def conns0 : List (String × List Nat) := [("A", [1]), ("C", [2])]

/-- EventManager registry with `B` subscribed to `goal.update`. -/
def emSubsW : List (String × List String) := [("B", ["goal.update"])]

/-- WebSocket registry with the dotted type present for `B`. -/
def wsSubsW : List (String × List String) := [("B", ["goal.update"])]

/-- Live connections: user `B` holds websocket 3. -/
def connsW : List (String × List Nat) := [("B", [3])]

/-- A user at the connection cap: `A` holds five websockets. -/
def wsSt5 : WSState := { connections := [("A", [1, 2, 3, 4, 5])], subscriptions := [] }

/-- A single-connection state for the heartbeat counterexample. -/
def wsSt1 : WSState :=
  { connections := [("A", [1])], subscriptions := [("A", ["goal"])] }

/-- A two-connection state for the heartbeat and disconnect theorems. -/
def wsSt2 : WSState :=
  { connections := [("A", [1, 2])], subscriptions := [("A", ["goal"])] }

/-- A sample sync schedule as `schedule_sync` builds it. -/
def sch0 : SyncSchedule :=
  { user_id := "U", access_tokens := ["tok"], interval := 60, last_sync := none }

/-- A sample aggregator account. -/
def acct9 : PlaidAccount := { account_id := "acc1", current := 100, available := 50, limit := 0 }

/-- The balance list `get_balances [acct9] "t1"` as cached after a sync at
clock reading `t1`. -/
def bal9 : List BalanceEntry :=
  [{ account_id := "acc1", current := 100, available := 50, limit := 0,
     last_updated := "t1" }]

/-- Balance cache holding `bal9` for user `A`. -/
def cache9 : List (String × List BalanceEntry) := [("balances:A", bal9)]

/-! ## Helper lemmas about the dict and set models -/

theorem alGet_alSet_same {α : Type} (l : List (String × α)) (k : String) (v : α) :
    alGet (alSet l k v) k = some v := by
  induction l with
  | nil => simp [alSet, alGet]
  | cons p rest ih =>
      by_cases h : p.1 = k
      · simp [alSet, h, alGet]
      · simp [alSet, h, alGet, ih]

theorem alGet_alSet_ne {α : Type} (l : List (String × α)) (k k' : String) (v : α)
    (h : k ≠ k') : alGet (alSet l k v) k' = alGet l k' := by
  induction l with
  | nil => simp [alSet, alGet, h]
  | cons p rest ih =>
      by_cases hp : p.1 = k
      · simp [alSet, hp, alGet, h]
      · simp [alSet, hp, alGet, ih]

theorem alGet_alRemove_same {α : Type} (l : List (String × α)) (k : String) :
    alGet (alRemove l k) k = none := by
  induction l with
  | nil => simp [alRemove, alGet]
  | cons p rest ih =>
      by_cases h : p.1 = k
      · simp [alRemove, h, ih]
      · simp [alRemove, h, alGet, ih]

theorem alGet_alRemove_ne {α : Type} (l : List (String × α)) (k k' : String)
    (h : k ≠ k') : alGet (alRemove l k) k' = alGet l k' := by
  induction l with
  | nil => simp [alRemove]
  | cons p rest ih =>
      by_cases hp : p.1 = k
      · rw [alRemove, if_pos hp, ih, alGet, if_neg (hp ▸ h)]
      · rw [alRemove, if_neg hp]
        by_cases hk : p.1 = k'
        · simp [alGet, hk]
        · simp [alGet, hk, ih]

theorem setAdd_length_le (l : List Nat) (x : Nat) :
    (setAdd l x).length ≤ l.length + 1 := by
  unfold setAdd
  split
  · exact Nat.le_succ _
  · simp

/-! ## Helper lemmas about the event and balance pipeline -/

theorem mem_distribute_message (conns : List (String × List Nat))
    (subs : List (String × List String)) (etype : String)
    (uids : Option (List String)) (u : String) (w : Nat) :
    (u, w) ∈ distribute_message conns subs etype uids ↔
      ∃ cs, (u, cs) ∈ conns ∧ w ∈ cs ∧ target_filter uids u = true ∧
        ∃ ts, alGet subs u = some ts ∧ etype ∈ ts := by
  unfold distribute_message
  rw [List.mem_flatMap]
  constructor
  · rintro ⟨⟨pu, pcs⟩, hp, hmem⟩
    dsimp only at hmem
    by_cases htf : target_filter uids pu = true
    · rw [if_pos htf] at hmem
      cases hg : alGet subs pu with
      | none => rw [hg] at hmem; simp at hmem
      | some ts =>
          rw [hg] at hmem
          dsimp only at hmem
          by_cases he : etype ∈ ts
          · rw [if_pos he] at hmem
            rw [List.mem_map] at hmem
            obtain ⟨w', hw', heq⟩ := hmem
            obtain ⟨h1, h2⟩ := Prod.mk.injEq _ _ _ _ ▸ heq
            subst h1; subst h2
            exact ⟨pcs, hp, hw', htf, ts, hg, he⟩
          · rw [if_neg he] at hmem; simp at hmem
    · rw [if_neg htf] at hmem; simp at hmem
  · rintro ⟨cs, hmemc, hw, htf, ts, hts, he⟩
    refine ⟨(u, cs), hmemc, ?_⟩
    dsimp only
    rw [if_pos htf, hts]
    dsimp only
    rw [if_pos he, List.mem_map]
    exact ⟨w, hw, rfl⟩

theorem mem_handle_event_subscribers (emSubs : List (String × List String))
    (etype : String) (targets : Option (List String)) (u : String) :
    u ∈ handle_event_subscribers emSubs etype targets ↔
      ∃ ts, (u, ts) ∈ emSubs ∧ etype ∈ ts ∧ target_filter targets u = true := by
  unfold handle_event_subscribers
  rw [List.mem_map]
  constructor
  · rintro ⟨⟨pu, pts⟩, hp, heq⟩
    dsimp only at heq
    subst heq
    rw [List.mem_filter] at hp
    obtain ⟨hmem, hcond⟩ := hp
    dsimp only at hcond
    rw [Bool.and_eq_true, decide_eq_true_eq] at hcond
    exact ⟨pts, hmem, hcond.1, hcond.2⟩
  · rintro ⟨ts, hmem, he, htf⟩
    refine ⟨(u, ts), List.mem_filter.mpr ⟨hmem, ?_⟩, rfl⟩
    dsimp only
    rw [Bool.and_eq_true, decide_eq_true_eq]
    exact ⟨he, htf⟩

theorem get_balances_cons_ne (a : PlaidAccount) (accounts : List PlaidAccount)
    (now1 now2 : String) (h : now1 ≠ now2) :
    get_balances (a :: accounts) now1 ≠ get_balances (a :: accounts) now2 := by
  unfold get_balances
  intro hEq
  simp only [List.map] at hEq
  have hhead := (List.cons_eq_cons.mp hEq).1
  injection hhead with h1 h2 h3 h4 h5
  exact h h5

theorem sync_account_data_cache_get (cacheBal : List (String × List BalanceEntry))
    (u : String) (accounts : List PlaidAccount) (now : String) :
    alGet (sync_account_data cacheBal u accounts now).cacheAfter ("balances:" ++ u)
      = some (get_balances accounts now) := by
  unfold sync_account_data
  cases hg : alGet cacheBal ("balances:" ++ u) with
  | none => simp [hg, alGet_alSet_same]
  | some c =>
      by_cases hc : c = []
      · simp [hg, hc, alGet_alSet_same]
      · by_cases hb : get_balances accounts now = c
        · simp [hg, hc, hb]
        · simp [hg, hc, hb, alGet_alSet_same]

/-! ## Claim C1 — idempotent replay of `sync_transactions` -/

/-- C1 counterexample.  The claim states that re-running
`SyncService.sync_transactions` with the same cursor and the same aggregator
response yields zero newly added transactions (dedup_key computed, duplicates
skipped).  With an aggregator that answers every cursor with the same batch
`([txn0], "c1")`, the second run reports `new_transactions = 1`, not `0`, and
republishes the same `transaction.create` event: the code computes no dedup
key and keeps no persistent transaction store. -/
theorem sync_transactions_replay_counterexample :
    ¬ ((sync_transactions (fun _ => ([txn0], "c1")) true
        (sync_transactions (fun _ => ([txn0], "c1")) true syncSt0 "U").1
        "U").2.new_transactions = 0) ∧
    (sync_transactions (fun _ => ([txn0], "c1")) true
        (sync_transactions (fun _ => ([txn0], "c1")) true syncSt0 "U").1
        "U").2.new_transactions = 1 ∧
    (sync_transactions (fun _ => ([txn0], "c1")) true
        (sync_transactions (fun _ => ([txn0], "c1")) true syncSt0 "U").1
        "U").2.events ≠ [] := by
  refine ⟨?_, rfl, ?_⟩ <;> decide

/-- C1 (amended): `SyncService.sync_transactions` performs no deduplication:
for any fixed aggregator response, the run after a first run reports the
whole batch as new again (`new_transactions` equals the batch length) and
publishes exactly the same events as the first run. -/
theorem sync_transactions_replay_reports_full_batch :
    ∀ (resp : List Txn × String) (st : SyncState) (u : String) (p1 p2 : Bool),
      ((sync_transactions (fun _ => resp) p2
          (sync_transactions (fun _ => resp) p1 st u).1 u).2).new_transactions
        = resp.1.length ∧
      ((sync_transactions (fun _ => resp) p2
          (sync_transactions (fun _ => resp) p1 st u).1 u).2).events
        = ((sync_transactions (fun _ => resp) p1 st u).2).events := by
  intro resp st u p1 p2
  exact ⟨rfl, rfl⟩

/-! ## Claim C2 — cursor persisted only with a fully applied batch -/

/-- C2 counterexample.  The claim states the cursor is updated iff the batch
was fully applied, and that a failure mid-apply leaves the old cursor.  Here
the `transaction.create` publication for the batch fails
(`EventManager.publish_event` returns `False`), yet the stored cursor has
already advanced from `c0` to `c1`: `SyncService.sync_transactions` saves the
cursor before publishing and ignores the publish outcome, and no persistent
batch apply exists. -/
theorem cursor_saved_despite_publish_failure :
    (sync_transactions (fun _ => ([txn0], "c1")) false syncStC0 "U").2.published_ok
      = false ∧
    alGet (sync_transactions (fun _ => ([txn0], "c1")) false syncStC0 "U").1.syncCursors
      "U" = some "c1" ∧
    alGet syncStC0.syncCursors "U" = some "c0" := by
  refine ⟨rfl, ?_, ?_⟩ <;> decide

/-- C2 (amended): the state left by `SyncService.sync_transactions` is
independent of the publish outcome, and the stored cursor advances exactly
when the aggregator returned a non-empty `next_cursor` — before and
regardless of event publication.  (An aggregator exception propagates before
any state change, so only that path leaves the old cursor.) -/
theorem cursor_advance_depends_only_on_next_cursor :
    ∀ (plaid : Option String → List Txn × String) (publishOk : Bool)
      (st : SyncState) (u : String),
      (sync_transactions plaid publishOk st u).1
        = (sync_transactions plaid true st u).1 ∧
      alGet (sync_transactions plaid publishOk st u).1.syncCursors u
        = (if (plaid (alGet st.syncCursors u)).2 ≠ ""
           then some (plaid (alGet st.syncCursors u)).2
           else alGet st.syncCursors u) := by
  intro plaid publishOk st u
  refine ⟨rfl, ?_⟩
  by_cases h : (plaid (alGet st.syncCursors u)).2 ≠ ""
  · simp only [sync_transactions, if_pos h, save_sync_cursor]
    rw [alGet_alSet_same]
  · simp only [sync_transactions]
    rw [if_neg h, if_neg h]

/-! ## Claim C5 — the known event-type set -/

/-- C5 counterexample.  The claim includes `sync.failed` in the closed set of
known types for which `EventManager.publish_event` returns `True`.  The
code's `EVENT_TYPES` has no `sync.failed`: publishing it raises `ValueError`
inside the `try` and the handler returns `False` — even when the event-store
write would succeed. -/
theorem publish_event_sync_failed_counterexample :
    "sync.failed" ∈ SPEC_KNOWN_EVENT_TYPES ∧
    publish_event true "sync.failed" = false := by
  exact ⟨by decide, by decide⟩

/-- C5 (amended): `EventManager.publish_event` returns `True` exactly when
the event type belongs to the code's five-element `EVENT_TYPES` set
(`account.update`, `transaction.create`, `budget.update`, `goal.update`,
`investment.update`; `sync.failed` is not among them) AND the event-store
write inside the `try` succeeds; for any type outside the set it returns
`False` rather than raising, whatever the write outcome, and a failed store
step (as with the repo's synchronous `RedisCache`, whose awaited `set` always
raises) yields `False` for valid types too. -/
theorem publish_event_true_iff_known_type_and_write_ok :
    ∀ (t : String) (cacheWriteOk : Bool),
      publish_event cacheWriteOk t = true ↔
        (t ∈ EVENT_TYPES_values ∧ cacheWriteOk = true) := by
  intro t ok
  by_cases h : t ∈ EVENT_TYPES_values <;> cases ok <;>
    simp [publish_event, publish_event_body, h]

/-! ## Claim C8 — retry policy of the periodic sync task -/

/-- C8 counterexample.  The claim states transient failures are retried with
exponential backoff up to a maximum attempt count, after which the schedule
turns `failed` and a `sync.failed` event is emitted.  Five consecutive
failures of the `sync_task` loop all choose the same fixed 60-second delay,
leave the schedule untouched (it has no status or failure-counter field), and
emit no event; `sync.failed` is not even a publishable event type (rejected
by the validation at the top of the `try`, before the store step). -/
theorem sync_retry_constant_delay_counterexample :
    (sync_task_fail_run sch0 5).2.1 = [60, 60, 60, 60, 60] ∧
    (sync_task_fail_run sch0 5).1 = sch0 ∧
    (sync_task_fail_run sch0 5).2.2 = [] ∧
    publish_event true "sync.failed" = false := by
  refine ⟨?_, ?_, ?_, ?_⟩ <;> decide

/-- C8 (amended): every failing iteration of the `sync_task` loop sleeps a
fixed 60 seconds and retries; arbitrarily many consecutive failures leave the
schedule unchanged and emit no events — there is no backoff, no attempt
limit, no `failed` state and no `sync.failed` emission. -/
theorem sync_task_fail_run_fixed_delay :
    ∀ (sch : SyncSchedule) (n : Nat),
      sync_task_fail_run sch n = (sch, List.replicate n 60, []) := by
  intro sch n
  induction n with
  | zero => rfl
  | succ n ih => simp [sync_task_fail_run, sync_task_step, ih, List.replicate]

/-! ## Claim C6 — per-user connection cap -/

/-- C6 (confirmed): `WebSocketManager.connect` rejects a user who already
holds `MAX_CONNECTIONS_PER_USER` live connections without touching the state,
and both `connect` and `disconnect` preserve the per-user bound
`userConnCount ≤ MAX_CONNECTIONS_PER_USER`. -/
theorem connection_cap_enforced :
    (∀ (st : WSState) (uid : String) (ws : Nat),
       MAX_CONNECTIONS_PER_USER ≤ userConnCount st uid →
       connect st (some uid) ws = (st, false)) ∧
    (∀ (st : WSState) (uopt : Option String) (ws : Nat) (u : String),
       userConnCount st u ≤ MAX_CONNECTIONS_PER_USER →
       userConnCount (connect st uopt ws).1 u ≤ MAX_CONNECTIONS_PER_USER) ∧
    (∀ (st : WSState) (u' : String) (ws : Nat) (u : String),
       userConnCount st u ≤ MAX_CONNECTIONS_PER_USER →
       userConnCount (disconnect st u' ws).1 u ≤ MAX_CONNECTIONS_PER_USER) := by
  refine ⟨?_, ?_, ?_⟩
  · intro st uid ws h
    unfold connect
    dsimp only
    cases hg : alGet st.connections uid with
    | none =>
        exfalso
        unfold userConnCount at h
        rw [hg] at h
        simp [MAX_CONNECTIONS_PER_USER] at h
    | some conns =>
        have h' : MAX_CONNECTIONS_PER_USER ≤ conns.length := by
          unfold userConnCount at h
          rw [hg] at h
          simpa using h
        dsimp only
        rw [if_pos h']
  · intro st uopt ws u h
    cases uopt with
    | none => simpa [connect] using h
    | some uid =>
        unfold connect
        dsimp only
        cases hg : alGet st.connections uid with
        | some conns =>
            dsimp only
            by_cases hc : MAX_CONNECTIONS_PER_USER ≤ conns.length
            · rw [if_pos hc]
              exact h
            · rw [if_neg hc]
              unfold userConnCount at h ⊢
              dsimp only
              by_cases hu : uid = u
              · subst hu
                rw [alGet_alSet_same]
                have hle := setAdd_length_le conns ws
                have hlt : conns.length < MAX_CONNECTIONS_PER_USER :=
                  Nat.lt_of_not_le hc
                simp only [Option.getD_some]
                omega
              · rw [alGet_alSet_ne _ _ _ _ hu]
                exact h
        | none =>
            unfold userConnCount at h ⊢
            dsimp only
            by_cases hu : uid = u
            · subst hu
              rw [alGet_alSet_same]
              simp [setAdd, MAX_CONNECTIONS_PER_USER]
            · rw [alGet_alSet_ne _ _ _ _ hu]
              exact h
  · intro st u' ws u h
    unfold disconnect
    cases hg : alGet st.connections u' with
    | none =>
        unfold userConnCount at h ⊢
        dsimp only
        exact h
    | some conns =>
        dsimp only
        by_cases hin : ws ∈ conns
        · rw [if_pos hin]
          unfold userConnCount at h ⊢
          dsimp only
          by_cases hemp : (conns.filter (fun w => decide (w ≠ ws))).isEmpty
          · rw [if_pos hemp]
            by_cases hu : u' = u
            · subst hu
              rw [alGet_alRemove_same]
              simp [MAX_CONNECTIONS_PER_USER]
            · rw [alGet_alRemove_ne _ _ _ hu]
              exact h
          · rw [if_neg hemp]
            by_cases hu : u' = u
            · subst hu
              rw [alGet_alSet_same]
              have hfil := List.length_filter_le (fun w => decide (w ≠ ws)) conns
              have hcl : conns.length ≤ MAX_CONNECTIONS_PER_USER := by
                rw [hg] at h
                simpa using h
              simp only [Option.getD_some]
              omega
            · rw [alGet_alSet_ne _ _ _ _ hu]
              exact h
        · rw [if_neg hin]
          exact h

/-- C6 witness: in a state where user `A` already holds five connections, the
cap hypothesis holds and a sixth `connect` is rejected with the state
untouched. -/
theorem connection_cap_enforced_witness :
    MAX_CONNECTIONS_PER_USER ≤ userConnCount wsSt5 "A" ∧
    connect wsSt5 (some "A") 6 = (wsSt5, false) :=
  ⟨by decide, connection_cap_enforced.1 wsSt5 "A" 6 (by decide)⟩

/-! ## Claim C7 — heartbeat liveness -/

/-- After `disconnect st u ws`, the websocket `ws` is no longer among `u`'s
registered connections (whatever the starting state). -/
theorem disconnect_removes_ws (st : WSState) (u : String) (ws : Nat)
    (cs : List Nat)
    (h : alGet ((disconnect st u ws).1).connections u = some cs) : ws ∉ cs := by
  unfold disconnect at h
  cases hg : alGet st.connections u with
  | none =>
      rw [hg] at h
      dsimp only at h
      rw [hg] at h
      simp at h
  | some conns =>
      rw [hg] at h
      dsimp only at h
      by_cases hin : ws ∈ conns
      · rw [if_pos hin] at h
        dsimp only at h
        by_cases hemp : (conns.filter (fun w => decide (w ≠ ws))).isEmpty
        · rw [if_pos hemp] at h
          rw [alGet_alRemove_same] at h
          simp at h
        · rw [if_neg hemp] at h
          rw [alGet_alSet_same] at h
          injection h with h'
          subst h'
          intro hmem
          have hdec := (List.mem_filter.mp hmem).2
          simp at hdec
      · rw [if_neg hin] at h
        dsimp only at h
        rw [hg] at h
        injection h with h'
        subst h'
        exact hin

/-- C7 counterexample.  The claim states the connection remains open iff a
`pong` is received within `PING_TIMEOUT`.  `_monitor_heartbeat` waits on
`websocket.receive_json()` with the timeout: any message that arrives within
the window keeps the connection open — here a message of type `subscribe`,
which is not a `pong`. -/
theorem heartbeat_any_message_counterexample :
    (monitor_heartbeat_step wsSt1 "A" 1 (HeartbeatObs.received "subscribe")).2
      = true ∧
    HeartbeatObs.received "subscribe" ≠ HeartbeatObs.received "pong" := by
  exact ⟨rfl, by decide⟩

/-- C7 (amended): after the server sends `ping`, the connection remains open
iff ANY message is received within `PING_TIMEOUT` (the code does not check
that it is a `pong`); on a timeout (a connection that sends nothing) the
connection is disconnected and removed from the registry. -/
theorem monitor_heartbeat_step_open_iff_message :
    ∀ (st : WSState) (u : String) (ws : Nat) (obs : HeartbeatObs),
      ((monitor_heartbeat_step st u ws obs).2 = true ↔
        ∃ m, obs = HeartbeatObs.received m) ∧
      (obs = HeartbeatObs.timeout →
        ∀ cs, alGet ((monitor_heartbeat_step st u ws obs).1).connections u
            = some cs → ws ∉ cs) := by
  intro st u ws obs
  constructor
  · cases obs with
    | received m => simp [monitor_heartbeat_step]
    | timeout => simp [monitor_heartbeat_step]
    | connectionClosed => simp [monitor_heartbeat_step]
  · rintro rfl cs hcs
    exact disconnect_removes_ws st u ws cs hcs

/-- C7 witness: with user `A` holding websockets 1 and 2, a heartbeat timeout
on websocket 1 leaves `A` registered with `[2]` only, so 1 was removed. -/
theorem monitor_heartbeat_step_open_iff_message_witness :
    alGet ((monitor_heartbeat_step wsSt2 "A" 1 HeartbeatObs.timeout).1).connections
        "A" = some [2] ∧
    (1 : Nat) ∉ ([2] : List Nat) :=
  ⟨by decide,
   (monitor_heartbeat_step_open_iff_message wsSt2 "A" 1 HeartbeatObs.timeout).2
     rfl [2] (by decide)⟩

/-! ## Claim C10 — disconnect deletes the user's whole subscription entry -/

/-- C10 (confirmed): subscriptions are keyed per user, and
`WebSocketManager.disconnect` deletes the user's entire subscription entry.
If a user holds two distinct websockets and one disconnects, the other stays
registered, the user's subscription lookup becomes `none`, and
`_distribute_message` delivers nothing to that user for any event type until
they subscribe again. -/
theorem disconnect_drops_user_subscriptions :
    ∀ (st : WSState) (u : String) (w1 w2 : Nat) (cs : List Nat),
      alGet st.connections u = some cs → w1 ∈ cs → w2 ∈ cs → w1 ≠ w2 →
      alGet ((disconnect st u w1).1).connections u
          = some (cs.filter (fun w => w ≠ w1)) ∧
      w2 ∈ cs.filter (fun w => w ≠ w1) ∧
      alGet ((disconnect st u w1).1).subscriptions u = none ∧
      ∀ (etype : String) (uids : Option (List String)) (w : Nat),
        (u, w) ∉ distribute_message ((disconnect st u w1).1).connections
          ((disconnect st u w1).1).subscriptions etype uids := by
  intro st u w1 w2 cs hget h1 h2 hne
  have hw2 : w2 ∈ cs.filter (fun w => decide (w ≠ w1)) :=
    List.mem_filter.mpr ⟨h2, decide_eq_true (Ne.symm hne)⟩
  have hne_emp : ¬ (cs.filter (fun w => decide (w ≠ w1))).isEmpty = true := by
    intro hemp
    rw [List.isEmpty_iff] at hemp
    rw [hemp] at hw2
    simp at hw2
  unfold disconnect
  rw [hget]
  dsimp only
  rw [if_pos h1]
  dsimp only
  rw [if_neg hne_emp]
  refine ⟨alGet_alSet_same _ _ _, hw2, alGet_alRemove_same _ _, ?_⟩
  intro etype uids w hmem
  rw [mem_distribute_message] at hmem
  obtain ⟨cs', _, _, _, ts, hts, _⟩ := hmem
  rw [alGet_alRemove_same] at hts
  simp at hts

/-- C10 witness: user `A` holds websockets 1 and 2 and is subscribed to
`goal`; after websocket 1 disconnects, `A`'s subscription entry is gone and a
`goal` event reaches none of `A`'s connections. -/
theorem disconnect_drops_user_subscriptions_witness :
    alGet wsSt2.connections "A" = some [1, 2] ∧
    alGet ((disconnect wsSt2 "A" 1).1).subscriptions "A" = none ∧
    ("A", 2) ∉ distribute_message ((disconnect wsSt2 "A" 1).1).connections
      ((disconnect wsSt2 "A" 1).1).subscriptions "goal" none :=
  ⟨by decide,
   (disconnect_drops_user_subscriptions wsSt2 "A" 1 2 [1, 2] (by decide) (by decide)
      (by decide) (by decide)).2.2.1,
   (disconnect_drops_user_subscriptions wsSt2 "A" 1 2 [1, 2] (by decide) (by decide)
      (by decide) (by decide)).2.2.2 "goal" none 2⟩

/-! ## Claim C4 — targeted delivery -/

/-- C4 counterexample.  The claim states that with a non-null `target_users`
the recipients are exactly (subscribers of the type) ∩ (live connections) ∩
`target_users`.  User `A` is subscribed to `goal.update` in EventManager's
registry, has a live connection, and is in `target_users = ["A"]` — by the
claim `A`'s connection 1 must receive the event — yet nothing is delivered:
`_distribute_message` additionally requires the dotted event type inside the
websocket-level subscription set, which `WebSocketManager.subscribe` can
never produce (it only admits `transaction`, `budget`, `goal`,
`notification`). -/
theorem targeted_delivery_counterexample :
    handle_event_recipients emSubs0 wsSubs0 conns0 "goal.update" (some ["A"])
      = [] ∧
    "A" ∈ handle_event_subscribers emSubs0 "goal.update" (some ["A"]) ∧
    alGet conns0 "A" = some [1] ∧
    (ws_subscribe { connections := conns0, subscriptions := wsSubs0 } "A"
        ["goal.update"]).2 = false := by
  refine ⟨?_, ?_, ?_, ?_⟩ <;> decide

/-- C4 (amended): for a published event (non-empty type), a (user, websocket)
pair receives the event iff the user passes `EventManager.handle_event`'s
subscriber computation (subscribed to the type there and passing the target
filter — where an EMPTY `target_users` list is treated as broadcast), AND
owns that live websocket, AND the websocket-level subscription registry maps
the user to a set containing the exact (dotted) event type.  The claimed
intersection is therefore further cut by the websocket-level subscription
check. -/
theorem handle_event_recipients_characterization :
    ∀ (emSubs wsSubs : List (String × List String))
      (conns : List (String × List Nat)) (etype : String)
      (targets : Option (List String)) (u : String) (w : Nat),
      etype ≠ "" →
      ((u, w) ∈ handle_event_recipients emSubs wsSubs conns etype targets ↔
        u ∈ handle_event_subscribers emSubs etype targets ∧
        (∃ cs, (u, cs) ∈ conns ∧ w ∈ cs) ∧
        (∃ ts, alGet wsSubs u = some ts ∧ etype ∈ ts)) := by
  intro emSubs wsSubs conns etype targets u w hne
  unfold handle_event_recipients
  rw [if_neg hne]
  dsimp only
  by_cases hs : handle_event_subscribers emSubs etype targets = []
  · rw [if_pos hs]
    simp [hs]
  · rw [if_neg hs]
    rw [mem_distribute_message]
    constructor
    · rintro ⟨cs, hc, hw, htf, ts, hts, he⟩
      have hu : u ∈ handle_event_subscribers emSubs etype targets := by
        unfold target_filter at htf
        dsimp only at htf
        rw [if_neg hs] at htf
        exact of_decide_eq_true htf
      exact ⟨hu, ⟨cs, hc, hw⟩, ⟨ts, hts, he⟩⟩
    · rintro ⟨hu, ⟨cs, hc, hw⟩, ⟨ts, hts, he⟩⟩
      refine ⟨cs, hc, hw, ?_, ts, hts, he⟩
      unfold target_filter
      dsimp only
      rw [if_neg hs]
      exact decide_eq_true hu

/-- C4 witness: a state in which the dotted type does sit in the
websocket-level registry, to exercise the characterization at a concrete
input. -/
theorem handle_event_recipients_characterization_witness :
    ("goal.update" : String) ≠ "" ∧
    (("B", 3) ∈ handle_event_recipients emSubsW wsSubsW connsW "goal.update"
        (some ["B"]) ↔
      "B" ∈ handle_event_subscribers emSubsW "goal.update" (some ["B"]) ∧
      (∃ cs, ("B", cs) ∈ connsW ∧ 3 ∈ cs) ∧
      (∃ ts, alGet wsSubsW "B" = some ts ∧ "goal.update" ∈ ts)) :=
  ⟨by decide,
   handle_event_recipients_characterization emSubsW wsSubsW connsW "goal.update"
     (some ["B"]) "B" 3 (by decide)⟩

/-! ## Claim C9 — balance-change detection -/

/-- C9 counterexample.  The claim states `changes_detected = true` iff some
account's fetched balance differs from the cached value.  User `A` has
`acc1`'s figures `(100, 50, 0)` cached from a sync at clock `t1`; a new fetch
at clock `t2` returns identical figures — no balance differs (the
`balanceFigures` projections agree) — yet `changes_detected = true`, because
`get_balances` stamps each entry with `last_updated` at fetch time and
`sync_account_data` compares the full dicts. -/
theorem sync_account_data_changed_counterexample :
    ((get_balances [acct9] "t2").map balanceFigures = bal9.map balanceFigures) ∧
    (sync_account_data cache9 "A" [acct9] "t2").changes_detected = true := by
  exact ⟨by decide, by decide⟩

/-- C9 (amended): because each fetch stamps `last_updated` with the current
clock, a second sync at a different clock reading always reports
`changes_detected = true`, even when every balance figure is unchanged (and
an empty cached list is treated as "changed" too); `changes_detected = false`
occurs exactly when the cached list is non-empty and equal — timestamps
included — to the fetched list, and then the cache is left unchanged and no
event is published. -/
theorem sync_account_data_changed_behavior :
    (∀ (cacheBal : List (String × List BalanceEntry)) (u : String)
       (accounts : List PlaidAccount) (now1 now2 : String),
       now1 ≠ now2 →
       (sync_account_data (sync_account_data cacheBal u accounts now1).cacheAfter
          u accounts now2).changes_detected = true) ∧
    (∀ (cacheBal : List (String × List BalanceEntry)) (u : String)
       (accounts : List PlaidAccount) (now : String) (c : List BalanceEntry),
       alGet cacheBal ("balances:" ++ u) = some c → c ≠ [] →
       get_balances accounts now = c →
       (sync_account_data cacheBal u accounts now).changes_detected = false ∧
       (sync_account_data cacheBal u accounts now).cacheAfter = cacheBal ∧
       (sync_account_data cacheBal u accounts now).events = []) := by
  constructor
  · intro cacheBal u accounts now1 now2 h
    set C := (sync_account_data cacheBal u accounts now1).cacheAfter with hC
    have hc : alGet C ("balances:" ++ u) = some (get_balances accounts now1) := by
      rw [hC]
      exact sync_account_data_cache_get cacheBal u accounts now1
    unfold sync_account_data
    dsimp only
    rw [hc]
    dsimp only
    cases accounts with
    | nil => simp [get_balances]
    | cons a as =>
        have hne2 : get_balances (a :: as) now2 ≠ get_balances (a :: as) now1 :=
          get_balances_cons_ne a as now2 now1 (Ne.symm h)
        simp [hne2]
  · intro cacheBal u accounts now c hget hne hbal
    unfold sync_account_data
    dsimp only
    rw [hget]
    dsimp only
    rw [hbal]
    simp [hne]

/-- C9 witness: at distinct clock readings `t1`, `t2` a second sync reports a
change despite identical figures; and with the cache holding exactly the
fetched list (same clock), the run reports no change. -/
theorem sync_account_data_changed_behavior_witness :
    ("t1" : String) ≠ "t2" ∧
    (sync_account_data (sync_account_data [] "A" [acct9] "t1").cacheAfter "A"
        [acct9] "t2").changes_detected = true ∧
    alGet cache9 ("balances:" ++ "A") = some bal9 ∧ bal9 ≠ [] ∧
    get_balances [acct9] "t1" = bal9 ∧
    (sync_account_data cache9 "A" [acct9] "t1").changes_detected = false :=
  ⟨by decide,
   sync_account_data_changed_behavior.1 [] "A" [acct9] "t1" "t2" (by decide),
   by decide, by decide, by decide,
   (sync_account_data_changed_behavior.2 cache9 "A" [acct9] "t1" bal9 (by decide)
      (by decide) (by decide)).1⟩

end MintRepl
